import Mathlib

/-
Verification of the Rebecca-node control-plane agent (src/rest_service.py,
src/node_service.py, src/config.py, src/main.py).

The embedding below translates the relevant parts of rest_service.py into
Lean definitions.  Session tokens (uuid4 values) are modelled as natural
numbers; wall-clock time is modelled in deciseconds (one tick is the 0.1 s
sleep of the readiness loop, two ticks are the 0.2 s receive timeout of the
log-stream loop); network and filesystem effects are passed in as explicit
oracle functions.  The Engine Manager (xray.py) is not part of src/, so its
stop behaviour is modelled from the spec where noted.
-/

namespace RebeccaNode

/-- HTTP error raised by a handler: status code and optional detail text.
Corresponds to fastapi HTTPException with a status_code and detail; a detail
of none models a detail value of None. -/
structure HTTPError where
  status : Nat
  detail : Option String
deriving DecidableEq

/-- Mutable state of the Service object in rest_service.py
(fields set in Service.__init__, lines 42 to 55), together with the
engine fields observed through self.core: started, executable_path and
assets_path, and the cached core_version. -/
structure ServiceState where
  connected : Bool
  client_ip : Option String
  session_id : Option Nat
  started : Bool
  core_version : String
  node_version : String
  executable_path : String
  assets_path : String
deriving DecidableEq

/-- Body of Service.response (rest_service.py lines 116 to 123), without
extra keyword fields. -/
structure Response where
  connected : Bool
  started : Bool
  core_version : String
  node_version : String
deriving DecidableEq

/-- Service.response: snapshot of the current state. -/
def response (st : ServiceState) : Response :=
  ⟨st.connected, st.started, st.core_version, st.node_version⟩

/-- Modelled from the spec: XRayCore.stop of the Engine Manager (xray.py is
not under src/).  Spec section 2 lists stop() and the started flag; section
4.2 says failures of stop when the engine is already stopped are of the
already-stopped class, raised as RuntimeError and visible to callers, while
a successful stop leaves running false.  The second component is the raised
RuntimeError, none when the call succeeds. -/
def coreStop (st : ServiceState) : ServiceState × Option String :=
  if st.started then ({ st with started := false }, none)
  else (st, some "RuntimeError")

/-- Service.match_session_id (rest_service.py lines 108 to 114): raises 403
when the presented token differs from the current session token (a presented
token never equals an absent session), else returns True. -/
def match_session_id (st : ServiceState) (session_id : Nat) : Except HTTPError Bool :=
  if some session_id ≠ st.session_id then
    .error ⟨403, some "Session ID mismatch."⟩
  else
    .ok true

/-- Service.connect (rest_service.py lines 128 to 146).  The fresh uuid4 is
passed in as the argument fresh.  A prior connection triggers, when the
engine is running, a best-effort stop whose RuntimeError is discarded.
Returns the new state together with the response and the session id echoed
in it. -/
def connect (st : ServiceState) (fresh : Nat) (caller_ip : String) :
    ServiceState × Response × Nat :=
  let st1 := { st with session_id := some fresh, client_ip := some caller_ip }
  let st2 :=
    if st1.connected then
      if st1.started then (coreStop st1).1 else st1
    else st1
  let st3 := { st2 with connected := true }
  (st3, response st3, fresh)

/-- Service.disconnect (rest_service.py lines 148 to 162): clears the
session, then issues a best-effort engine stop. -/
def disconnect (st : ServiceState) : ServiceState × Response :=
  let st1 := { st with session_id := none, client_ip := none, connected := false }
  let st2 := if st1.started then (coreStop st1).1 else st1
  (st2, response st2)

/-- Service.ping (rest_service.py lines 164 to 166): pure session
validation. -/
def ping (st : ServiceState) (session_id : Nat) : Except HTTPError Unit :=
  match match_session_id st session_id with
  | .error e => .error e
  | .ok _ => .ok ()

/-- Service.stop (rest_service.py lines 212 to 221): validate the session,
stop the engine discarding RuntimeError, return a response snapshot of the
state after the stop. -/
def stop (st : ServiceState) (session_id : Nat) : ServiceState × Except HTTPError Response :=
  match match_session_id st session_id with
  | .error e => (st, .error e)
  | .ok _ =>
    let st1 := (coreStop st).1
    (st1, .ok (response st1))

/-- Substring test on character lists, modelling the Python in operator on
strings: the needle occurs contiguously in the haystack. -/
def infixCheck (needle : List Char) : List Char → Bool
  | [] => needle.isEmpty
  | c :: rest => needle.isPrefixOf (c :: rest) || infixCheck needle rest

/-- Substring test on strings: needle occurs in hay. -/
def strContains (hay needle : String) : Bool :=
  infixCheck needle.data hay.data

/-- Marker substring announcing a successful engine start, as interpolated
in rest_service.py lines 193 and 254. -/
def markerOf (version : String) : String :=
  "Xray " ++ version ++ " started"

/-- Inner drain loop of the readiness poll (rest_service.py lines 189 to
194): pop lines while the queue is non-empty, remember the last non-empty
line, and break out of the drain - leaving the remaining lines queued - as
soon as a line containing the started marker is seen. -/
def drainOnce (version : String) : List String → String → List String × String
  | [], last => ([], last)
  | log :: rest, last =>
    let last1 := if log = "" then last else log
    if strContains log (markerOf version) then (rest, last1)
    else drainOnce version rest last1

/-- Outer readiness poll of Service.start and Service.restart
(rest_service.py lines 185 to 195 and 246 to 256).  Time is counted in
deciseconds: the loop runs while the clock t is before endT, each iteration
draining the queue extended with the lines arrive t that appeared since the
previous iteration and then sleeping one tick.  The result is the last
observed non-empty line together with the number of iterations executed.
The fuel argument only bounds the recursion and is irrelevant once it is at
least endT - t. -/
def readinessLoop (version : String) (arrive : Nat → List String) (endT : Nat) :
    Nat → Nat → List String → String → String × Nat
  | 0, _, _, last => (last, 0)
  | fuel + 1, t, queue, last =>
    if t < endT then
      let d := drainOnce version (queue ++ arrive t) last
      let r := readinessLoop version arrive endT fuel (t + 1) d.1 d.2
      (r.1, r.2 + 1)
    else (last, 0)

/-- Last non-empty string of a list, folded left as the drain loop does,
starting from a default. -/
def lastNonEmptyFrom (last : String) (ls : List String) : String :=
  ls.foldl (fun acc l => if l = "" then acc else l) last

/-- All log lines arriving at ticks t, t+1, ..., endT - 1, in order. -/
def window (arrive : Nat → List String) (t endT : Nat) : List String :=
  ((List.range (endT - t)).map fun k => arrive (t + k)).flatten

/-- Service.start (rest_service.py lines 168 to 210).  parseOk is the
outcome of XRayConfig parsing, start_exc the exception raised by
core.start if any, arrive the log lines reaching the scoped log buffer at
each tick, and startedAfter the engine running flag observed after the
3 second window (30 ticks).  On a mismatched session the handler fails 403;
on a parse failure 422; on a start exception 503; after the poll, a
non-running engine yields 503 carrying the last observed line. -/
def start (st : ServiceState) (session_id : Nat) (parseOk : Bool)
    (start_exc : Option String) (arrive : Nat → List String) (startedAfter : Bool) :
    ServiceState × Except HTTPError Response :=
  match match_session_id st session_id with
  | .error e => (st, .error e)
  | .ok _ =>
    if parseOk = false then
      (st, .error ⟨422, some "Failed to decode config"⟩)
    else
      match start_exc with
      | some exc => (st, .error ⟨503, some exc⟩)
      | none =>
        let last := (readinessLoop st.core_version arrive 30 31 0 [] "").1
        let st1 := { st with started := startedAfter }
        if startedAfter = false then (st1, .error ⟨503, some last⟩)
        else (st1, .ok (response st1))

/-- Service.restart (rest_service.py lines 223 to 271): as start, but with
a best-effort pre-stop (grace sleep elided, RuntimeError swallowed) before
the identical readiness poll. -/
def restart (st : ServiceState) (session_id : Nat) (parseOk : Bool)
    (restart_exc : Option String) (arrive : Nat → List String) (startedAfter : Bool) :
    ServiceState × Except HTTPError Response :=
  match match_session_id st session_id with
  | .error e => (st, .error e)
  | .ok _ =>
    if parseOk = false then
      (st, .error ⟨422, some "Failed to decode config"⟩)
    else
      let st1 := if st.started then (coreStop st).1 else st
      match restart_exc with
      | some exc => (st1, .error ⟨503, some exc⟩)
      | none =>
        let last := (readinessLoop st.core_version arrive 30 31 0 [] "").1
        let st2 := { st1 with started := startedAfter }
        if startedAfter = false then (st2, .error ⟨503, some last⟩)
        else (st2, .ok (response st2))

/-- Outcome of the interval validation of the log-stream endpoint. -/
inductive IntervalDecision where
  | close4400 (reason : String)
  | accept (interval : Option ℚ)
deriving DecidableEq

/-- Interval validation of Service.logs (rest_service.py lines 275 and 285
to 294).  The argument encodes the interval query parameter: none when the
parameter is absent or the empty string (a falsy string skips the whole
block), some none when it is a non-empty string that does not parse as a
float, and some (some v) when it parses to the value v.  Only an interval
strictly greater than 10 is rejected; the parsed value is then carried into
the stream loop, where a zero value disables batching by falsiness. -/
def intervalGate : Option (Option ℚ) → IntervalDecision
  | none => .accept none
  | some none => .close4400 "Invalid interval value"
  | some (some v) =>
    if 10 < v then
      .close4400 "Interval must be more than 0 and at most 10 seconds"
    else
      .accept (some v)

/-- State of one pass of the log-stream loop of Service.logs
(rest_service.py lines 298 to 323): the clock t in deciseconds since the
epoch, the pending batch cache, the epoch-initialised flush timestamp
last_sent, the shared log queue, and the messages sent so far, each with
its send time. -/
structure StreamState where
  t : Nat
  cache : String
  last_sent : Nat
  queue : List String
  msgs : List (Nat × String)
deriving DecidableEq

/-- One iteration of the log-stream loop (rest_service.py lines 301 to
323) with batching interval intervalDs in deciseconds; intervalDs = 0
models a falsy interval (absent, or accepted as 0).  First the flush step:
when batching is on, the time since the last flush reaches the interval and
the batch is non-empty, the batch is sent and the timer reset.  Then: an
empty queue waits two ticks (the 0.2 s receive timeout) and loops; else one
line is popped and either appended to the batch with a newline, or sent
immediately when batching is off.  Sends are assumed to succeed and client
messages other than disconnect are not modelled; the loop runs while the
session is unchanged, which holds throughout the runs considered here. -/
def logsStep (intervalDs : Nat) (s : StreamState) : StreamState :=
  let s1 :=
    if intervalDs ≠ 0 ∧ intervalDs ≤ s.t - s.last_sent ∧ s.cache ≠ "" then
      { s with msgs := s.msgs ++ [(s.t, s.cache)], cache := "", last_sent := s.t }
    else s
  match s1.queue with
  | [] => { s1 with t := s1.t + 2 }
  | log :: rest =>
    if intervalDs ≠ 0 then { s1 with queue := rest, cache := s1.cache ++ log ++ "\n" }
    else { s1 with queue := rest, msgs := s1.msgs ++ [(s1.t, log)] }

/-- Iterate the log-stream loop a given number of times. -/
def logsRun (intervalDs : Nat) : Nat → StreamState → StreamState
  | 0, s => s
  | n + 1, s => logsRun intervalDs n (logsStep intervalDs s)

/-- Body of a response from the Local Maintenance Agent as seen by
Service._call_node_service: a JSON object carrying a detail string, a JSON
object without one, some other JSON value (rendered as a string), or a
non-JSON body with its raw text. -/
inductive UpstreamBody where
  | jsonDetail (detail : String)
  | jsonNoDetail
  | jsonValue (v : String)
  | notJson (text : String)
deriving DecidableEq

/-- Result of the outbound POST of Service._call_node_service: either a
transport failure (requests.RequestException) or a response with a status
code and body. -/
inductive Upstream where
  | transportError (msg : String)
  | response (status : Nat) (body : UpstreamBody)
deriving DecidableEq

/-- Parsed response data as computed at rest_service.py lines 98 to 101:
either a JSON dict with an optional detail entry, or a bare value. -/
inductive UpData where
  | dict (detail : Option String)
  | val (v : String)
deriving DecidableEq

/-- Body parsing of _call_node_service (rest_service.py lines 98 to 101):
a non-JSON body is replaced by a dict whose detail is the raw text, or a
fixed message when the text is empty. -/
def parseBody : UpstreamBody → UpData
  | .jsonDetail d => .dict (some d)
  | .jsonNoDetail => .dict none
  | .jsonValue v => .val v
  | .notJson text =>
    .dict (some (if text = "" then "Node maintenance service returned invalid response." else text))

/-- Detail extracted for an error response (rest_service.py line 104):
data.get of detail when data is a dict, else data itself. -/
def upDetail : UpData → Option String
  | .dict d => d
  | .val v => some v

/-- Service._call_node_service (rest_service.py lines 82 to 106): a missing
base yields 503; a transport failure 502; a response with status at least
400 is re-raised with the upstream status and extracted detail; any other
response is returned as success.  Timeouts are not modelled. -/
def call_node_service (base : Option String) (u : Upstream) : Except HTTPError UpData :=
  match base with
  | none => .error ⟨503, some "Node maintenance service is not configured on this node."⟩
  | some _ =>
    match u with
    | .transportError msg =>
      .error ⟨502, some ("Unable to reach node maintenance service: " ++ msg)⟩
    | .response code body =>
      let data := parseBody body
      if 400 ≤ code then .error ⟨code, upDetail data⟩
      else .ok data

/-- Service.restart_node_service (rest_service.py lines 482 to 484):
validate the session, then forward to the maintenance agent restart path
(timeout 300 s, not modelled). -/
def restart_node_service (st : ServiceState) (base : Option String) (session_id : Nat)
    (u : Upstream) : Except HTTPError UpData :=
  match match_session_id st session_id with
  | .error e => .error e
  | .ok _ => call_node_service base u

/-- Service.update_node_service (rest_service.py lines 486 to 488):
validate the session, then forward to the maintenance agent update path
(timeout 900 s, not modelled). -/
def update_node_service (st : ServiceState) (base : Option String) (session_id : Nat)
    (u : Upstream) : Except HTTPError UpData :=
  match match_session_id st session_id with
  | .error e => .error e
  | .ok _ => call_node_service base u

/-- Leading-whitespace removal on character lists. -/
def dropLeadingWs : List Char → List Char
  | [] => []
  | c :: cs => if c.isWhitespace then dropLeadingWs cs else c :: cs

/-- Python str.strip(): remove leading and trailing whitespace. -/
def pyStrip (s : String) : String :=
  ⟨((dropLeadingWs ((dropLeadingWs s.data).reverse)).reverse)⟩

/-- Python str.startswith(pre): prefix test on characters. -/
def startsWithCheck (s pre : String) : Bool :=
  pre.data.isPrefixOf s.data

/-- Service._detect_asset_name (rest_service.py lines 332 to 346).  The
arguments are platform.system().lower() and platform.machine().lower(). -/
def detect_asset_name (sys arch : String) : Except HTTPError String :=
  if startsWithCheck sys "linux" then
    if arch = "x86_64" ∨ arch = "amd64" then .ok "Xray-linux-64.zip"
    else if arch = "aarch64" ∨ arch = "arm64" then .ok "Xray-linux-arm64-v8a.zip"
    else if arch = "armv7l" ∨ arch = "armv7" then .ok "Xray-linux-arm32-v7a.zip"
    else if arch = "armv6l" then .ok "Xray-linux-arm32-v6.zip"
    else if arch = "riscv64" then .ok "Xray-linux-riscv64.zip"
    else .error ⟨400, some "Unsupported platform for node"⟩
  else .error ⟨400, some "Unsupported platform for node"⟩

/-- Service.update_core (rest_service.py lines 418 to 458).  fetch is the
network oracle for HTTP GET by URL; installOk abstracts archive extraction
and executable lookup of _install_zip_to (false models the 500 failure when
no xray binary is found); newVersion is the engine version reported after
the swap.  The middle component lists the URLs downloaded.  Filesystem
writes, the rename fallback and the docker-compose rewrite are assumed to
succeed and are not otherwise observable here. -/
def update_core (st : ServiceState) (sys arch version : String)
    (fetch : String → Except String Unit) (installOk : Bool) (newVersion : String) :
    ServiceState × List String × Except HTTPError String :=
  if version = "" then (st, [], .error ⟨422, some "version is required"⟩)
  else
    match detect_asset_name sys arch with
    | .error e => (st, [], .error e)
    | .ok asset =>
      let url := "https://github.com/XTLS/Xray-core/releases/download/" ++ version ++ "/" ++ asset
      match fetch url with
      | .error e => (st, [url], .error ⟨502, some ("Download failed: " ++ e)⟩)
      | .ok _ =>
        let st1 := if st.started then (coreStop st).1 else st
        if installOk = false then
          (st1, [url], .error ⟨500, some "xray binary not found in archive"⟩)
        else
          let exe := "/var/lib/reb/xray-core/xray"
          let st2 := { st1 with executable_path := exe, core_version := newVersion }
          (st2, [url], .ok ("Node core ready at " ++ exe))

/-- One entry of the files list of update_geo.  A missing name or url key
is modelled as the empty string, matching item.get with an or-default. -/
structure GeoFile where
  name : String
  url : String
deriving DecidableEq

/-- Service._download_files_to (rest_service.py lines 367 to 390):
sequentially validate and download each entry, stopping at the first
invalid entry (422) or failed download (502).  The first component lists
the URLs for which a download was performed; the second is the saved-file
report.  Writing the file to disk is assumed to succeed (the 500 save
failure is not exercised by the claims). -/
def download_files_to (fetch : String → Except String Unit) (path : String) :
    List GeoFile → List String × Except HTTPError (List (String × String))
  | [] => ([], .ok [])
  | item :: rest =>
    let name := pyStrip item.name
    let url := pyStrip item.url
    if name = "" ∨ url = "" then
      ([], .error ⟨422, some "Each file must include non-empty \x27name\x27 and \x27url\x27."⟩)
    else
      match fetch url with
      | .error e => ([url], .error ⟨502, some ("Failed to download " ++ name ++ ": " ++ e)⟩)
      | .ok _ =>
        let r := download_files_to fetch path rest
        (url :: r.1, r.2.map fun saved => (name, path ++ "/" ++ name) :: saved)

/-- Service.update_geo (rest_service.py lines 460 to 480): a body that is
not a list, or an empty list, fails 422; otherwise the entries are handed
to _download_files_to targeting the fixed assets directory.  files = none
models a non-list body.  The assets-path update and docker-compose rewrite
after a successful download are not observable in the claims below. -/
def update_geo (fetch : String → Except String Unit) (files : Option (List GeoFile)) :
    List String × Except HTTPError String :=
  match files with
  | none =>
    ([], .error ⟨422, some "\x27files\x27 must be a non-empty list of \x7bname,url\x7d."⟩)
  | some [] =>
    ([], .error ⟨422, some "\x27files\x27 must be a non-empty list of \x7bname,url\x7d."⟩)
  | some fs =>
    let r := download_files_to fetch "/var/lib/reb/assets" fs
    (r.1, r.2.map fun _ => "Geo assets saved to /var/lib/reb/assets")

/-- Connect installs the fresh token as the session and leaves the node
connected, whatever the prior state. -/
lemma connect_fields (st : ServiceState) (f : Nat) (ip : String) :
    (connect st f ip).1.session_id = some f ∧ (connect st f ip).1.connected = true := by
  simp only [connect, coreStop]
  split_ifs <;> simp

/-- Matching a token against a session holding a different token fails 403. -/
lemma match_session_id_ne (st : ServiceState) (a b : Nat)
    (hb : st.session_id = some b) (hab : a ≠ b) :
    match_session_id st a = .error ⟨403, some "Session ID mismatch."⟩ := by
  simp [match_session_id, hb, hab]

/-- Matching the current session token succeeds. -/
lemma match_session_id_eq (st : ServiceState) (a : Nat) (ha : st.session_id = some a) :
    match_session_id st a = .ok true := by
  simp [match_session_id, ha]

/-- C1: after connect A then connect B, every privileged call (ping, start,
stop, restart, maintenance restart and update) presenting the prior token A
fails with SessionMismatch (403), while the same call presenting the token
B passes session validation; and when no session exists, matching fails
with SessionMismatch for every token. -/
theorem session_exclusivity (st st2 stN : ServiceState) (A B tokN : Nat)
    (ipA ipB : String) (base : Option String) (u : Upstream)
    (p : Bool) (e : Option String) (ar : Nat → List String) (sa : Bool)
    (hAB : A ≠ B)
    (hst2 : st2 = (connect (connect st A ipA).1 B ipB).1)
    (hN : stN.session_id = none) :
    match_session_id st2 A = .error ⟨403, some "Session ID mismatch."⟩
    ∧ match_session_id st2 B = .ok true
    ∧ ping st2 A = .error ⟨403, some "Session ID mismatch."⟩
    ∧ (start st2 A p e ar sa).2 = .error ⟨403, some "Session ID mismatch."⟩
    ∧ (stop st2 A).2 = .error ⟨403, some "Session ID mismatch."⟩
    ∧ (restart st2 A p e ar sa).2 = .error ⟨403, some "Session ID mismatch."⟩
    ∧ restart_node_service st2 base A u = .error ⟨403, some "Session ID mismatch."⟩
    ∧ update_node_service st2 base A u = .error ⟨403, some "Session ID mismatch."⟩
    ∧ ping st2 B = .ok ()
    ∧ (start st2 B p e ar sa).2 ≠ .error ⟨403, some "Session ID mismatch."⟩
    ∧ (stop st2 B).2 = .ok (response (stop st2 B).1)
    ∧ (restart st2 B p e ar sa).2 ≠ .error ⟨403, some "Session ID mismatch."⟩
    ∧ restart_node_service st2 base B u = call_node_service base u
    ∧ update_node_service st2 base B u = call_node_service base u
    ∧ match_session_id stN tokN = .error ⟨403, some "Session ID mismatch."⟩ := by
  have h2 : st2.session_id = some B := by
    rw [hst2]; exact (connect_fields (connect st A ipA).1 B ipB).1
  have hm := match_session_id_ne st2 A B h2 hAB
  have hq := match_session_id_eq st2 B h2
  refine ⟨hm, hq, ?_, ?_, ?_, ?_, ?_, ?_, ?_, ?_, ?_, ?_, ?_, ?_, ?_⟩
  · simp [ping, hm]
  · simp [start, hm]
  · simp [stop, hm]
  · simp [restart, hm]
  · simp [restart_node_service, hm]
  · simp [update_node_service, hm]
  · simp [ping, hq]
  · simp only [start, hq]
    cases p <;> cases e <;> cases sa <;> simp
  · simp [stop, hq]
  · simp only [restart, hq]
    cases p <;> cases e <;> cases sa <;> simp
  · simp [restart_node_service, hq]
  · simp [update_node_service, hq]
  · simp [match_session_id, hN]

/-- Witness for session_exclusivity at a concrete pair of connects. -/
theorem session_exclusivity_witness :
    (0 : Nat) ≠ 1
    ∧ match_session_id
        (connect (connect ⟨false, none, none, false, "1.8.4", "0.1.0", "/usr/local/bin/xray", "/usr/local/share/xray"⟩ 0 "10.0.0.1").1 1 "10.0.0.2").1 0
        = .error ⟨403, some "Session ID mismatch."⟩ :=
  ⟨by decide,
    (session_exclusivity
      ⟨false, none, none, false, "1.8.4", "0.1.0", "/usr/local/bin/xray", "/usr/local/share/xray"⟩
      (connect (connect ⟨false, none, none, false, "1.8.4", "0.1.0", "/usr/local/bin/xray", "/usr/local/share/xray"⟩ 0 "10.0.0.1").1 1 "10.0.0.2").1
      ⟨false, none, none, false, "1.8.4", "0.1.0", "/usr/local/bin/xray", "/usr/local/share/xray"⟩
      0 1 7 "10.0.0.1" "10.0.0.2" none (.transportError "down")
      true none (fun _ => []) true (by decide) rfl rfl).1⟩

/-- C2: connect always succeeds and returns the fresh token: the new state
carries it as the session and the response echoes it; and when a prior
connection exists with the engine running, the engine running flag is false
before the connect response is returned, the RuntimeError of the
best-effort stop being discarded. -/
theorem connect_takeover (st : ServiceState) (fresh a : Nat) (ip : String)
    (_hs : st.session_id = some a) (hc : st.connected = true) (hr : st.started = true) :
    (connect st fresh ip).2.2 = fresh
    ∧ (connect st fresh ip).1.session_id = some fresh
    ∧ (connect st fresh ip).1.connected = true
    ∧ (connect st fresh ip).1.started = false := by
  simp [connect, coreStop, hc, hr]

/-- Witness for connect_takeover on a running session. -/
theorem connect_takeover_witness :
    (connect ⟨true, some "10.0.0.1", some 3, true, "1.8.4", "0.1.0", "p", "q"⟩ 4 "10.0.0.2").2.2 = 4
    ∧ (connect ⟨true, some "10.0.0.1", some 3, true, "1.8.4", "0.1.0", "p", "q"⟩ 4 "10.0.0.2").1.session_id = some 4
    ∧ (connect ⟨true, some "10.0.0.1", some 3, true, "1.8.4", "0.1.0", "p", "q"⟩ 4 "10.0.0.2").1.connected = true
    ∧ (connect ⟨true, some "10.0.0.1", some 3, true, "1.8.4", "0.1.0", "p", "q"⟩ 4 "10.0.0.2").1.started = false :=
  connect_takeover ⟨true, some "10.0.0.1", some 3, true, "1.8.4", "0.1.0", "p", "q"⟩ 4 3
    "10.0.0.2" rfl rfl rfl

/-- C8: with a valid session token, stop on an already stopped engine
returns a success response, not an error, and composing stop with itself is
equivalent to a single stop. -/
theorem stop_idempotent (st : ServiceState) (tok : Nat) (h : st.session_id = some tok) :
    (st.started = false → stop st tok = (st, .ok (response st)))
    ∧ stop (stop st tok).1 tok = stop st tok := by
  have hq := match_session_id_eq st tok h
  constructor
  · intro h0
    simp [stop, hq, coreStop, h0]
  · by_cases hs : st.started = true
    · simp [stop, hq, coreStop, hs, match_session_id, h]
    · simp [stop, hq, coreStop, hs, match_session_id, h]

/-- Witness for stop_idempotent on a stopped engine. -/
theorem stop_idempotent_witness :
    (⟨true, some "ip", some 7, false, "v", "n", "p", "q"⟩ : ServiceState).started = false
    ∧ stop ⟨true, some "ip", some 7, false, "v", "n", "p", "q"⟩ 7
        = (⟨true, some "ip", some 7, false, "v", "n", "p", "q"⟩,
            .ok (response ⟨true, some "ip", some 7, false, "v", "n", "p", "q"⟩))
    ∧ stop (stop ⟨true, some "ip", some 7, false, "v", "n", "p", "q"⟩ 7).1 7
        = stop ⟨true, some "ip", some 7, false, "v", "n", "p", "q"⟩ 7 :=
  ⟨rfl,
    (stop_idempotent ⟨true, some "ip", some 7, false, "v", "n", "p", "q"⟩ 7 rfl).1 rfl,
    (stop_idempotent ⟨true, some "ip", some 7, false, "v", "n", "p", "q"⟩ 7 rfl).2⟩

/-- Draining a queue that contains no started marker empties it and folds
the last-non-empty-line update over every popped line. -/
lemma drainOnce_no_marker (v : String) (q : List String) (last : String)
    (h : ∀ l ∈ q, strContains l (markerOf v) = false) :
    drainOnce v q last = ([], lastNonEmptyFrom last q) := by
  induction q generalizing last with
  | nil => simp [drainOnce, lastNonEmptyFrom]
  | cons a q ih =>
    have ha := h a (List.mem_cons_self a q)
    have hrest : ∀ l ∈ q, strContains l (markerOf v) = false :=
      fun l hl => h l (List.mem_cons_of_mem a hl)
    simp only [drainOnce, ha, Bool.false_eq_true, if_false, lastNonEmptyFrom,
      List.foldl_cons]
    exact ih _ hrest

/-- The readiness poll always executes exactly endT - t iterations,
whatever lines arrive and whatever they contain. -/
lemma readinessLoop_count (v : String) (arrive : Nat → List String) (endT : Nat) :
    ∀ (fuel t : Nat) (q : List String) (last : String), endT - t ≤ fuel →
      (readinessLoop v arrive endT fuel t q last).2 = endT - t := by
  intro fuel
  induction fuel with
  | zero =>
    intro t q last h
    simp only [readinessLoop]
    omega
  | succ n ih =>
    intro t q last h
    by_cases hlt : t < endT
    · simp only [readinessLoop, hlt, if_true]
      rw [ih (t + 1) _ _ (by omega)]
      omega
    · simp only [readinessLoop, hlt, if_false]
      omega

/-- The arrival window at t splits off the lines arriving at tick t. -/
lemma window_cons (arrive : Nat → List String) (t endT : Nat) (h : t < endT) :
    window arrive t endT = arrive t ++ window arrive (t + 1) endT := by
  unfold window
  have he : endT - t = (endT - (t + 1)) + 1 := by omega
  rw [he, List.range_succ_eq_map]
  simp only [List.map_cons, List.map_map, List.flatten_cons, Nat.add_zero]
  have hf : ((fun k => arrive (t + k)) ∘ Nat.succ) = fun k => arrive (t + 1 + k) := by
    funext k
    simp only [Function.comp]
    congr 1
    omega
  rw [hf]

/-- With no started marker among the arriving lines, the readiness poll
starting from an empty queue returns the last non-empty line among all
lines arriving before the deadline. -/
lemma readinessLoop_no_marker (v : String) (arrive : Nat → List String) (endT : Nat)
    (hA : ∀ t, ∀ l ∈ arrive t, strContains l (markerOf v) = false) :
    ∀ (fuel t : Nat) (last : String), endT - t ≤ fuel →
      (readinessLoop v arrive endT fuel t [] last).1
        = lastNonEmptyFrom last (window arrive t endT) := by
  intro fuel
  induction fuel with
  | zero =>
    intro t last h
    have ht : endT - t = 0 := by omega
    simp [readinessLoop, window, ht, lastNonEmptyFrom]
  | succ n ih =>
    intro t last h
    by_cases hlt : t < endT
    · simp only [readinessLoop, hlt, if_true, List.nil_append]
      rw [drainOnce_no_marker v (arrive t) last (hA t)]
      rw [ih (t + 1) _ (by omega)]
      rw [window_cons arrive t endT hlt]
      simp [lastNonEmptyFrom, List.foldl_append]
    · have ht : endT - t = 0 := by omega
      simp [readinessLoop, hlt, window, ht, lastNonEmptyFrom]

/-- The left fold computing the last non-empty line equals the last element
of the list with empty lines filtered out, with the fold seed as default. -/
lemma lastNonEmptyFrom_eq_getLastD (ls : List String) :
    ∀ a, lastNonEmptyFrom a ls = (ls.filter fun l => l ≠ "").getLastD a := by
  induction ls with
  | nil => intro a; rfl
  | cons x xs ih =>
    intro a
    by_cases hx : x = ""
    · have h1 : lastNonEmptyFrom a (x :: xs) = lastNonEmptyFrom a xs := by
        simp [lastNonEmptyFrom, hx]
      have h2 : (x :: xs).filter (fun l => decide (l ≠ "")) = xs.filter (fun l => decide (l ≠ "")) :=
        List.filter_cons_of_neg (by simp [hx])
      rw [h1, ih a, h2]
    · have h1 : lastNonEmptyFrom a (x :: xs) = lastNonEmptyFrom x xs := by
        simp [lastNonEmptyFrom, hx]
      have h2 : (x :: xs).filter (fun l => decide (l ≠ "")) = x :: xs.filter (fun l => decide (l ≠ "")) :=
        List.filter_cons_of_pos (by simp [hx])
      rw [h1, ih x, h2, List.getLastD_cons]

/-- C3: a start call with a valid token and well-formed config, over a log
source that never emits the started marker and an engine that never reports
running, fails after the 3 second window (30 poll ticks) with
ServiceUnavailable (503) whose detail is the last non-empty line observed
before the deadline, the empty string when none was observed. -/
theorem start_timeout_last_line (st : ServiceState) (tok : Nat)
    (arrive : Nat → List String)
    (hmatch : st.session_id = some tok)
    (hno : ∀ t, ∀ l ∈ arrive t, strContains l (markerOf st.core_version) = false) :
    start st tok true none arrive false
      = ({ st with started := false },
          .error ⟨503, some (((window arrive 0 30).filter fun l => l ≠ "").getLastD "")⟩) := by
  have hq := match_session_id_eq st tok hmatch
  have hloop := readinessLoop_no_marker st.core_version arrive 30 hno 31 0 "" (by omega)
  simp only [start, hq]
  rw [hloop, lastNonEmptyFrom_eq_getLastD]
  simp

/-- Witness for start_timeout_last_line with a silent log source. -/
theorem start_timeout_last_line_witness :
    start ⟨true, some "ip", some 9, false, "1.8.4", "0.1.0", "p", "q"⟩ 9 true none
        (fun _ => []) false
      = (⟨true, some "ip", some 9, false, "1.8.4", "0.1.0", "p", "q"⟩,
          .error ⟨503, some (((window (fun _ => ([] : List String)) 0 30).filter
              fun l => l ≠ "").getLastD "")⟩) :=
  start_timeout_last_line ⟨true, some "ip", some 9, false, "1.8.4", "0.1.0", "p", "q"⟩ 9
    (fun _ => []) rfl (fun _ l hl => absurd hl (List.not_mem_nil l))

/-- C4 counterexample: a log line containing the announced-version started
marker arrives at the very first tick, yet the readiness loop still runs
all 30 poll iterations of the 3 second window instead of terminating as
soon as the marker is observed. -/
theorem readiness_loop_runs_to_deadline_despite_marker :
    strContains "Xray 1.8.4 started" (markerOf "1.8.4") = true
    ∧ (readinessLoop "1.8.4"
        (fun t => if t = 0 then ["Xray 1.8.4 started"] else []) 30 31 0 [] "").2 = 30 := by
  constructor
  · decide
  · decide

/-- C4 amended: the readiness loop of start and restart polls at one-tick
(0.1 s) cadence and always runs the full window of endT - t iterations,
regardless of the arriving lines; observing the started marker only breaks
the inner drain of the pending queue, deferring the remaining queued lines
to the next iteration, and never shortens the window; the engine running
flag is consulted only after the window. -/
theorem readiness_loop_full_window (v : String) (arrive : Nat → List String)
    (endT fuel t : Nat) (q rest : List String) (last log l : String)
    (h : endT - t ≤ fuel)
    (hm : strContains log (markerOf v) = true) :
    (readinessLoop v arrive endT fuel t q last).2 = endT - t
    ∧ drainOnce v (log :: rest) l = (rest, if log = "" then l else log) := by
  refine ⟨readinessLoop_count v arrive endT fuel t q last h, ?_⟩
  simp [drainOnce, hm]

/-- Witness for readiness_loop_full_window at the 3 second window. -/
theorem readiness_loop_full_window_witness :
    30 - 0 ≤ 31
    ∧ ((readinessLoop "1.0" (fun _ => []) 30 31 0 [] "").2 = 30 - 0
        ∧ drainOnce "1.0" ("Xray 1.0 started" :: ["next line"]) ""
            = (["next line"], if "Xray 1.0 started" = "" then "" else "Xray 1.0 started")) :=
  ⟨by decide,
    readiness_loop_full_window "1.0" (fun _ => []) 30 31 0 [] ["next line"] ""
      "Xray 1.0 started" "" (by decide) (by decide)⟩

/-- C5 evaluation: the log-stream interval validation accepts interval 0
(the parsed float 0.0 later reads as falsy, silently disabling batching)
and even a negative interval, while rejecting 11 with close code 4400 and
accepting 5; the code therefore does not enforce the lower bound of the
half-open range (0, 10] announced in its own close reason. -/
theorem interval_gate_eval :
    intervalGate (some (some 0)) = .accept (some 0)
    ∧ intervalGate (some (some 11))
        = .close4400 "Interval must be more than 0 and at most 10 seconds"
    ∧ intervalGate (some (some 5)) = .accept (some 5)
    ∧ intervalGate (some (some (-1))) = .accept (some (-1)) := by
  refine ⟨?_, ?_, ?_, ?_⟩ <;> norm_num [intervalGate]

/-- C6 counterexample: a stream opened with interval 1 (10 ticks) over a
queue already holding three lines delivers two messages, not one: because
the flush timestamp is initialised to the epoch, the first line is flushed
alone at the very first loop pass (time 17000, i.e. zero elapsed since the
stream started, earlier than the configured interval), and only the
remaining two lines are batched newline-joined one interval later. -/
theorem logs_two_messages_counterexample :
    (logsRun 10 9 ⟨17000, "", 0, ["line one", "line two", "line three"], []⟩).msgs
      = [(17000, "line one\n"), (17010, "line two\nline three\n")] := by
  decide

/-- C6 amended: within the stream loop a batch is emitted exactly when
batching is on, the time since the last flush is at least the interval and
the pending batch is non-empty; since the last-flush timestamp starts at
the epoch, the first non-empty batch is flushed immediately, so with
interval 1 and three lines enqueued at stream start exactly two messages
are delivered: the first line alone at stream-start time t0, then the two
remaining lines newline-joined exactly one interval after that first
flush. -/
theorem logs_batching_amended (t0 : Nat) (s s2 : StreamState)
    (h : 10 ≤ t0)
    (hA : s.t - s.last_sent < 10 ∨ s.cache = "")
    (h2a : 10 ≤ s2.t - s2.last_sent) (h2b : s2.cache ≠ "") :
    (logsRun 10 9 ⟨t0, "", 0, ["line one", "line two", "line three"], []⟩).msgs
      = [(t0, "line one\n"), (t0 + 10, "line two\nline three\n")]
    ∧ (logsStep 10 s).msgs = s.msgs
    ∧ (logsStep 10 s2).msgs = s2.msgs ++ [(s2.t, s2.cache)] := by
  refine ⟨?_, ?_, ?_⟩
  · have L : ∀ (n : Nat) (s3 : StreamState),
        logsRun 10 (n + 1) s3 = logsRun 10 n (logsStep 10 s3) := fun _ _ => rfl
    have e1 : logsStep 10 ⟨t0, "", 0, ["line one", "line two", "line three"], []⟩
        = ⟨t0, "line one\n", 0, ["line two", "line three"], []⟩ := by
      simp [logsStep]
    have e2 : logsStep 10 ⟨t0, "line one\n", 0, ["line two", "line three"], []⟩
        = ⟨t0, "line two\n", t0, ["line three"], [(t0, "line one\n")]⟩ := by
      simp [logsStep, h]
    have e3 : logsStep 10 ⟨t0, "line two\n", t0, ["line three"], [(t0, "line one\n")]⟩
        = ⟨t0, "line two\nline three\n", t0, [], [(t0, "line one\n")]⟩ := by
      simp [logsStep]
    have e4 : logsStep 10 ⟨t0, "line two\nline three\n", t0, [], [(t0, "line one\n")]⟩
        = ⟨t0 + 2, "line two\nline three\n", t0, [], [(t0, "line one\n")]⟩ := by
      simp [logsStep]
    have e5 : logsStep 10 ⟨t0 + 2, "line two\nline three\n", t0, [], [(t0, "line one\n")]⟩
        = ⟨t0 + 4, "line two\nline three\n", t0, [], [(t0, "line one\n")]⟩ := by
      have hc : ¬ (10 ≤ t0 + 2 - t0) := by omega
      simp [logsStep, hc]
    have e6 : logsStep 10 ⟨t0 + 4, "line two\nline three\n", t0, [], [(t0, "line one\n")]⟩
        = ⟨t0 + 6, "line two\nline three\n", t0, [], [(t0, "line one\n")]⟩ := by
      have hc : ¬ (10 ≤ t0 + 4 - t0) := by omega
      simp [logsStep, hc]
    have e7 : logsStep 10 ⟨t0 + 6, "line two\nline three\n", t0, [], [(t0, "line one\n")]⟩
        = ⟨t0 + 8, "line two\nline three\n", t0, [], [(t0, "line one\n")]⟩ := by
      have hc : ¬ (10 ≤ t0 + 6 - t0) := by omega
      simp [logsStep, hc]
    have e8 : logsStep 10 ⟨t0 + 8, "line two\nline three\n", t0, [], [(t0, "line one\n")]⟩
        = ⟨t0 + 10, "line two\nline three\n", t0, [], [(t0, "line one\n")]⟩ := by
      have hc : ¬ (10 ≤ t0 + 8 - t0) := by omega
      simp [logsStep, hc]
    have e9 : logsStep 10 ⟨t0 + 10, "line two\nline three\n", t0, [], [(t0, "line one\n")]⟩
        = ⟨t0 + 12, "", t0 + 10, [],
            [(t0, "line one\n"), (t0 + 10, "line two\nline three\n")]⟩ := by
      have hc : 10 ≤ t0 + 10 - t0 := by omega
      simp [logsStep, hc]
    rw [L 8, e1, L 7, e2, L 6, e3, L 5, e4, L 4, e5, L 3, e6, L 2, e7, L 1, e8, L 0, e9]
    rfl
  · obtain ⟨t, c, ls, q, m⟩ := s
    have hA2 : ¬ ((10 : Nat) ≠ 0 ∧ 10 ≤ t - ls ∧ c ≠ "") := by
      rcases hA with h1 | h1
      · simp at h1 ⊢
        omega
      · simp at h1 ⊢
        intro _
        simp [h1]
    simp only [logsStep, if_neg hA2]
    cases q <;> simp
  · obtain ⟨t, c, ls, q, m⟩ := s2
    have hc : ((10 : Nat) ≠ 0 ∧ 10 ≤ t - ls ∧ c ≠ "") := ⟨by decide, h2a, h2b⟩
    simp only [logsStep, if_pos hc]
    cases q <;> simp

/-- Witness for logs_batching_amended at a concrete stream start. -/
theorem logs_batching_amended_witness :
    (10 ≤ 20000 ∧ 50 - 45 < 10 ∧ "y" ≠ "")
    ∧ ((logsRun 10 9 ⟨20000, "", 0, ["line one", "line two", "line three"], []⟩).msgs
        = [(20000, "line one\n"), (20000 + 10, "line two\nline three\n")]
      ∧ (logsStep 10 ⟨50, "", 45, [], []⟩).msgs = ([] : List (Nat × String))
      ∧ (logsStep 10 ⟨60, "y", 40, [], []⟩).msgs = [] ++ [(60, "y")]) :=
  ⟨⟨by decide, by decide, by decide⟩,
    logs_batching_amended 20000 ⟨50, "", 45, [], []⟩ ⟨60, "y", 40, [], []⟩
      (by decide) (Or.inl (by decide)) (by decide) (by decide)⟩

/-- C7 counterexample: an update_geo call whose second entry has an empty
url fails with ValidationError 422, but the first entry has already been
downloaded by then - one download is performed, not zero, so validation is
not performed up front for every position of the invalid entry. -/
theorem update_geo_downloads_before_invalid :
    update_geo (fun _ => .ok ())
        (some [⟨"geoip.dat", "http://example.com/geoip.dat"⟩, ⟨"geosite.dat", ""⟩])
      = (["http://example.com/geoip.dat"],
          .error ⟨422, some "Each file must include non-empty \x27name\x27 and \x27url\x27."⟩) := by
  rfl

/-- Unfolding of update_geo on a non-empty files list. -/
lemma update_geo_cons (fetch : String → Except String Unit) (a : GeoFile) (l : List GeoFile) :
    update_geo fetch (some (a :: l))
      = ((download_files_to fetch "/var/lib/reb/assets" (a :: l)).1,
          (download_files_to fetch "/var/lib/reb/assets" (a :: l)).2.map
            fun _ => "Geo assets saved to /var/lib/reb/assets") := rfl

/-- Sequential download with the first invalid entry at an arbitrary
position: every earlier valid entry is downloaded, then the loop stops with
422. -/
lemma download_files_to_first_invalid
    (fetch : String → Except String Unit) (path : String)
    (pre : List GeoFile) (bad : GeoFile) (rest : List GeoFile)
    (hpre : ∀ f ∈ pre, pyStrip f.name ≠ "" ∧ pyStrip f.url ≠ "")
    (hfetch : ∀ f ∈ pre, fetch (pyStrip f.url) = .ok ())
    (hbad : pyStrip bad.name = "" ∨ pyStrip bad.url = "") :
    download_files_to fetch path (pre ++ bad :: rest)
      = (pre.map fun f => pyStrip f.url,
          .error ⟨422, some "Each file must include non-empty \x27name\x27 and \x27url\x27."⟩) := by
  induction pre with
  | nil =>
    simp only [List.nil_append, List.map_nil]
    rw [download_files_to]
    simp only [if_pos hbad]
  | cons a pre ih =>
    have ha := hpre a (List.mem_cons_self a pre)
    have hfa := hfetch a (List.mem_cons_self a pre)
    have hrec := ih (fun f hf => hpre f (List.mem_cons_of_mem a hf))
      (fun f hf => hfetch f (List.mem_cons_of_mem a hf))
    simp only [List.cons_append]
    rw [download_files_to]
    have hcond : ¬ (pyStrip a.name = "" ∨ pyStrip a.url = "") := by
      rcases ha with ⟨h1, h2⟩
      intro hor
      rcases hor with h | h
      · exact h1 h
      · exact h2 h
    simp only [if_neg hcond, hfa, hrec, List.map_cons, Except.map]

/-- C7 amended: an update_geo call whose file list contains an entry
missing a non-empty name or url fails with ValidationError 422, and the
downloads performed are exactly those of the entries strictly before the
first invalid entry - zero downloads exactly when the invalid entry comes
first, since each entry is validated only when the sequential download loop
reaches it. -/
theorem update_geo_first_invalid
    (fetch : String → Except String Unit)
    (pre : List GeoFile) (bad : GeoFile) (rest : List GeoFile)
    (hpre : ∀ f ∈ pre, pyStrip f.name ≠ "" ∧ pyStrip f.url ≠ "")
    (hfetch : ∀ f ∈ pre, fetch (pyStrip f.url) = .ok ())
    (hbad : pyStrip bad.name = "" ∨ pyStrip bad.url = "") :
    update_geo fetch (some (pre ++ bad :: rest))
      = (pre.map fun f => pyStrip f.url,
          .error ⟨422, some "Each file must include non-empty \x27name\x27 and \x27url\x27."⟩) := by
  have hd := download_files_to_first_invalid fetch "/var/lib/reb/assets" pre bad rest
    hpre hfetch hbad
  cases pre with
  | nil =>
    simp only [List.nil_append] at hd ⊢
    rw [update_geo_cons, hd]
    rfl
  | cons a pre =>
    simp only [List.cons_append] at hd ⊢
    rw [update_geo_cons, hd]
    rfl

/-- Witness for update_geo_first_invalid with the invalid entry second. -/
theorem update_geo_first_invalid_witness :
    update_geo (fun _ => .ok ())
        (some ([⟨"geoip.dat", "http://example.com/a"⟩] ++ (⟨"", "http://example.com/b"⟩ : GeoFile) :: []))
      = ([(⟨"geoip.dat", "http://example.com/a"⟩ : GeoFile)].map fun f => pyStrip f.url,
          .error ⟨422, some "Each file must include non-empty \x27name\x27 and \x27url\x27."⟩) :=
  update_geo_first_invalid (fun _ => .ok ()) [⟨"geoip.dat", "http://example.com/a"⟩]
    ⟨"", "http://example.com/b"⟩ []
    (by intro f hf; simp at hf; subst hf; exact ⟨by decide, by decide⟩)
    (by intro f hf; simp at hf; subst hf; rfl)
    (Or.inl (by decide))

/-- C9 counterexample: a non-2xx upstream response with status 304 is not
translated into an error by _call_node_service - the guard only fires at
status 400 and above, so the 304 body is returned as success. -/
theorem call_node_service_304_passes :
    (300 ≤ 304 ∧ ¬ (200 ≤ 304 ∧ 304 ≤ 299))
    ∧ call_node_service (some "http://127.0.0.1:3100") (.response 304 (.jsonDetail "x"))
        = .ok (.dict (some "x")) := by
  constructor
  · constructor
    · decide
    · decide
  · rfl

/-- C9 amended: for a maintenance call with a valid token, an upstream
response with status at least 400 is translated into an error preserving
the upstream status and the upstream detail verbatim when present; a
transport failure is translated into a 502 error; and an upstream response
with status below 400 (all 2xx and also 3xx) is returned as success. -/
theorem call_node_service_translation (st : ServiceState) (tok : Nat)
    (base msg d : String) (code1 code2 : Nat) (body1 body2 : UpstreamBody)
    (htok : st.session_id = some tok)
    (h1 : 400 ≤ code1) (h2 : code2 < 400) :
    restart_node_service st (some base) tok (.transportError msg)
        = .error ⟨502, some ("Unable to reach node maintenance service: " ++ msg)⟩
    ∧ restart_node_service st (some base) tok (.response code1 body1)
        = .error ⟨code1, upDetail (parseBody body1)⟩
    ∧ update_node_service st (some base) tok (.response code1 (.jsonDetail d))
        = .error ⟨code1, some d⟩
    ∧ update_node_service st (some base) tok (.response code2 body2)
        = .ok (parseBody body2) := by
  have hq := match_session_id_eq st tok htok
  refine ⟨?_, ?_, ?_, ?_⟩
  · simp [restart_node_service, hq, call_node_service]
  · simp [restart_node_service, hq, call_node_service, if_pos h1]
  · simp [update_node_service, hq, call_node_service, if_pos h1, parseBody, upDetail]
  · simp [update_node_service, hq, call_node_service, if_neg (by omega : ¬ 400 ≤ code2)]

/-- Witness for call_node_service_translation at concrete statuses. -/
theorem call_node_service_translation_witness :
    (400 ≤ 500 ∧ 200 < 400)
    ∧ (restart_node_service ⟨true, some "ip", some 2, false, "v", "n", "p", "q"⟩
          (some "http://127.0.0.1:3100") 2 (.transportError "refused")
        = .error ⟨502, some ("Unable to reach node maintenance service: " ++ "refused")⟩
      ∧ restart_node_service ⟨true, some "ip", some 2, false, "v", "n", "p", "q"⟩
          (some "http://127.0.0.1:3100") 2 (.response 500 (.notJson ""))
        = .error ⟨500, upDetail (parseBody (.notJson ""))⟩
      ∧ update_node_service ⟨true, some "ip", some 2, false, "v", "n", "p", "q"⟩
          (some "http://127.0.0.1:3100") 2 (.response 500 (.jsonDetail "boom"))
        = .error ⟨500, some "boom"⟩
      ∧ update_node_service ⟨true, some "ip", some 2, false, "v", "n", "p", "q"⟩
          (some "http://127.0.0.1:3100") 2 (.response 200 (.jsonNoDetail))
        = .ok (parseBody .jsonNoDetail)) :=
  ⟨⟨by decide, by decide⟩,
    call_node_service_translation ⟨true, some "ip", some 2, false, "v", "n", "p", "q"⟩ 2
      "http://127.0.0.1:3100" "refused" "boom" 500 200 (.notJson "") .jsonNoDetail
      rfl (by decide) (by decide)⟩

/-- C10: an update_core call on a host whose platform and architecture have
no artifact mapping fails with status 400 before any download is attempted
and before the engine is stopped: the returned state is the input state
unchanged - same running flag, executable path, assets path and reported
version - and the list of performed downloads is empty. -/
theorem update_core_unsupported (st : ServiceState) (sys arch version : String)
    (fetch : String → Except String Unit) (installOk : Bool) (newVersion : String)
    (hv : version ≠ "")
    (hd : detect_asset_name sys arch = .error ⟨400, some "Unsupported platform for node"⟩) :
    update_core st sys arch version fetch installOk newVersion
      = (st, [], .error ⟨400, some "Unsupported platform for node"⟩) := by
  simp [update_core, hv, hd]

/-- Witness for update_core_unsupported on a darwin host. -/
theorem update_core_unsupported_witness :
    "v1.8.4" ≠ ""
    ∧ detect_asset_name "darwin" "arm64" = .error ⟨400, some "Unsupported platform for node"⟩
    ∧ update_core ⟨true, some "ip", some 2, true, "v", "n", "p", "q"⟩ "darwin" "arm64" "v1.8.4"
        (fun _ => .ok ()) true "w"
      = (⟨true, some "ip", some 2, true, "v", "n", "p", "q"⟩, [],
          .error ⟨400, some "Unsupported platform for node"⟩) :=
  ⟨by decide, rfl,
    update_core_unsupported ⟨true, some "ip", some 2, true, "v", "n", "p", "q"⟩
      "darwin" "arm64" "v1.8.4" (fun _ => .ok ()) true "w" (by decide) rfl⟩

end RebeccaNode
